import Mathlib

/-!
Shallow embedding of the settings reconciliation and persistence flow of
`src/components/dashboard/SettingsSection/DisplaySettings.tsx` and
`src/components/dashboard/universal/ThemeToggle.tsx`.

Serialized remote fields are represented by their decoded view: a field is
either absent (missing, non-string or empty), blank (a string that trims to
empty), malformed (JSON.parse throws, or parses to `null` so that property
access throws), or parsed to an object whose relevant properties are JS
values.  `JSON.stringify` of the records built by the code is modelled as
producing a parsed field holding exactly the serialized properties, which is
what `JSON.parse` recovers from the produced text.

React state semantics: calling a `useState` setter does not change the value
of the corresponding constant in the closure of the currently running render;
it only affects the next render.  The `loadPreferences` effect runs in the
first render's closure, so the `theme`, `fontSize`, `colorBlindMode` and
`reducedMotion` constants read by `initializeDefaultSettings` are the initial
form-state values (the module defaults), not the values passed to the setters
earlier in the same effect.  The embedding reflects this.
-/

namespace IeeeSettings

/-- The theme enum: form state `theme` has TS type `'light' | 'dark'`. -/
inductive Theme where
  | light
  | dark
deriving DecidableEq

/-- The string the JS code uses for each theme value. -/
def Theme.toStr : Theme → String
  | .light => "light"
  | .dark => "dark"

/-- A JSON value as far as the components inspect one: strings, booleans,
numbers and null.  Strict equality (`===`/`!==`) between such values is
structural equality on this type. -/
inductive JsValue where
  | str (s : String)
  | bool (b : Bool)
  | num (n : Int)
  | null
deriving DecidableEq

/-- JS truthiness of a `JsValue`. -/
def JsValue.truthy : JsValue → Bool
  | .str s => s != ""
  | .bool b => b
  | .num n => n != 0
  | .null => false

/-- JS truthiness of an optional value; a missing property (`undefined`) is
falsy. -/
def truthyOpt : Option JsValue → Bool
  | some v => v.truthy
  | none => false

/-- `['light', 'dark'].includes(v)`: `includes` compares with strict equality
against each element, so only the strings "light" and "dark" match. -/
def includesLightDark (tv : Option JsValue) : Bool :=
  if tv = some (.str "light") ∨ tv = some (.str "dark") then true else false

/-- The `Theme` denoted by a JS value when it is one of the two valid theme
strings (the `as 'light' | 'dark'` cast after the `includes` check). -/
def jsToTheme (tv : Option JsValue) : Option Theme :=
  if tv = some (.str "light") then some .light
  else if tv = some (.str "dark") then some .dark
  else none

/-- `typeof v === 'boolean'` for an optional property. -/
def isBoolOpt : Option JsValue → Bool
  | some (.bool _) => true
  | _ => false

/-- The boolean carried by an optional value, with a fallback. -/
def getBoolD : Option JsValue → Bool → Bool
  | some (.bool b), _ => b
  | _, d => d

/-- The `ThemeSettings` record of the Local Preference Store.  `fontSize` is a
`JsValue` rather than a fixed enum because `setFontSize(userPrefs.fontSize)`
in `loadPreferences` accepts any truthy parsed value, and `handleSubmit`
writes the working `fontSize` to the store wholesale. -/
structure ThemeSettings where
  id : String
  theme : Theme
  fontSize : JsValue
  colorBlindMode : Bool
  reducedMotion : Bool
  updatedAt : Nat
deriving DecidableEq

/-- Modelled from the spec: `DEFAULT_THEME_SETTINGS` is imported from
`src/scripts/database/ThemeService`, which is not among the sources; §6 gives
the default record `{theme: dark, fontSize: medium, colorBlindMode: false,
reducedMotion: false}`, with the fixed identifier "current" (§3). -/
def DEFAULT_THEME_SETTINGS : ThemeSettings :=
  { id := "current"
    theme := .dark
    fontSize := .str "medium"
    colorBlindMode := false
    reducedMotion := false
    updatedAt := 0 }

/-- Decoded view of the `display_preferences` JSON object: the two properties
the components read. -/
structure DisplayPrefsObj where
  theme : Option JsValue
  fontSize : Option JsValue
deriving DecidableEq

/-- Decoded view of the `accessibility_settings` JSON object. -/
structure AccessObj where
  colorBlindMode : Option JsValue
  reducedMotion : Option JsValue
deriving DecidableEq

/-- Decoded view of a serialized remote text field.  `absent` covers a
missing, non-string or empty (falsy) value; `blank` a string whose trim is
empty; `malformed` a string on which JSON.parse throws (or parses to `null`,
so that the subsequent property access throws inside the same try block). -/
inductive RemoteField (α : Type) where
  | absent
  | blank
  | malformed
  | parsed (a : α)
deriving DecidableEq

/-- The per-user remote profile record, restricted to the fields this code
reads and writes. -/
structure UserRecord where
  id : String
  display_preferences : RemoteField DisplayPrefsObj
  accessibility_settings : RemoteField AccessObj
deriving DecidableEq

/-- The field map passed to `update.updateFields`: each key is present only
when the code put it into `updateData`. -/
structure UpdateData where
  display_preferences : Option (RemoteField DisplayPrefsObj)
  accessibility_settings : Option (RemoteField AccessObj)
deriving DecidableEq

/-- Models `JSON.stringify({theme, fontSize})` by its decoded view: the
produced text is a non-blank string that parses back to exactly this
two-property object. -/
def stringifyDisplayPrefs (theme : Theme) (fontSize : JsValue) :
    RemoteField DisplayPrefsObj :=
  .parsed { theme := some (.str theme.toStr), fontSize := some fontSize }

/-- Models `JSON.stringify({colorBlindMode, reducedMotion})` by its decoded
view. -/
def stringifyAccessibility (colorBlindMode reducedMotion : Bool) :
    RemoteField AccessObj :=
  .parsed { colorBlindMode := some (.bool colorBlindMode)
            reducedMotion := some (.bool reducedMotion) }

/-- The two persistent stores: the single Local Preference Store record
(`none` when nothing has been stored yet) and the authenticated user's remote
record (`none` when unauthenticated). -/
structure Stores where
  localRecord : Option ThemeSettings
  remoteUser : Option UserRecord
deriving DecidableEq

/-- Modelled from the spec: `themeService.getThemeSettings()`
(`src/scripts/database/ThemeService` is not among the sources); §4.1/§6: the
read returns the stored record, or the defaults when none is stored. -/
def getThemeSettings (s : Stores) : ThemeSettings :=
  s.localRecord.getD DEFAULT_THEME_SETTINGS

/-- Effect of `update.updateFields(Collections.USERS, userId, updateData)` on
the user record: exactly the keys present in the map are replaced. -/
def applyUpdateFields (u : UserRecord) (d : UpdateData) : UserRecord :=
  { u with
    display_preferences := d.display_preferences.getD u.display_preferences
    accessibility_settings :=
      d.accessibility_settings.getD u.accessibility_settings }

/-- DisplaySettings.tsx lines 57-64: validation and application of the remote
`theme` property against the local base theme.  Returns the working theme,
whether `setHasChanges(true)` was issued for it, and whether
`needsDisplayPrefsUpdate` was set by the theme branch. -/
def reconTheme (baseTheme : Theme) (tv : Option JsValue) :
    Theme × Bool × Bool :=
  if truthyOpt tv ∧ includesLightDark tv ∧ tv ≠ some (.str baseTheme.toStr) then
    ((jsToTheme tv).getD baseTheme, true, false)
  else if ¬ includesLightDark tv then
    (baseTheme, false, true)
  else
    (baseTheme, false, false)

/-- DisplaySettings.tsx lines 66-70: application of the remote `fontSize`
property (truthy and differing; no enum validation).  Returns the working
fontSize and whether `setHasChanges(true)` was issued. -/
def reconFontSize (baseFontSize : JsValue) (fv : Option JsValue) :
    JsValue × Bool :=
  if truthyOpt fv ∧ fv ≠ some baseFontSize then
    (fv.getD baseFontSize, true)
  else
    (baseFontSize, false)

/-- DisplaySettings.tsx lines 84-96, one boolean preference: applied only when
strictly boolean and differing. -/
def reconBoolPref (base : Bool) (v : Option JsValue) : Bool × Bool :=
  if isBoolOpt v ∧ v ≠ some (.bool base) then
    (getBoolD v base, true)
  else
    (base, false)

/-- Outcome of the display-preferences branch of `loadPreferences`. -/
structure DisplayRecon where
  theme : Theme
  fontSize : JsValue
  hasChanges : Bool
  needsDisplayPrefsUpdate : Bool
deriving DecidableEq

/-- DisplaySettings.tsx lines 52-77: the whole display-preferences branch.
A missing/non-string/empty field, a blank field, and a parse failure all set
`needsDisplayPrefsUpdate` and leave the working values at the base. -/
def reconDisplayField (base : ThemeSettings) (f : RemoteField DisplayPrefsObj) :
    DisplayRecon :=
  match f with
  | .parsed o =>
      let tr := reconTheme base.theme o.theme
      let fr := reconFontSize base.fontSize o.fontSize
      { theme := tr.1
        fontSize := fr.1
        hasChanges := tr.2.1 || fr.2
        needsDisplayPrefsUpdate := tr.2.2 }
  | .malformed =>
      { theme := base.theme, fontSize := base.fontSize
        hasChanges := false, needsDisplayPrefsUpdate := true }
  | .blank =>
      { theme := base.theme, fontSize := base.fontSize
        hasChanges := false, needsDisplayPrefsUpdate := true }
  | .absent =>
      { theme := base.theme, fontSize := base.fontSize
        hasChanges := false, needsDisplayPrefsUpdate := true }

/-- Outcome of the accessibility-settings branch of `loadPreferences`. -/
structure AccessRecon where
  colorBlindMode : Bool
  reducedMotion : Bool
  hasChanges : Bool
  needsAccessibilityUpdate : Bool
deriving DecidableEq

/-- DisplaySettings.tsx lines 80-103: the whole accessibility-settings branch.
Note the parsed branch never sets `needsAccessibilityUpdate`: only absence,
blankness or a parse failure does. -/
def reconAccessField (base : ThemeSettings) (f : RemoteField AccessObj) :
    AccessRecon :=
  match f with
  | .parsed o =>
      let cr := reconBoolPref base.colorBlindMode o.colorBlindMode
      let rr := reconBoolPref base.reducedMotion o.reducedMotion
      { colorBlindMode := cr.1
        reducedMotion := rr.1
        hasChanges := cr.2 || rr.2
        needsAccessibilityUpdate := false }
  | .malformed =>
      { colorBlindMode := base.colorBlindMode, reducedMotion := base.reducedMotion
        hasChanges := false, needsAccessibilityUpdate := true }
  | .blank =>
      { colorBlindMode := base.colorBlindMode, reducedMotion := base.reducedMotion
        hasChanges := false, needsAccessibilityUpdate := true }
  | .absent =>
      { colorBlindMode := base.colorBlindMode, reducedMotion := base.reducedMotion
        hasChanges := false, needsAccessibilityUpdate := true }

/-- DisplaySettings.tsx lines 137-161, `initializeDefaultSettings`: builds the
`updateData` map with exactly the flagged fields, serializing the form-state
values captured by its closure. -/
def initializeDefaultSettings (theme : Theme) (fontSize : JsValue)
    (colorBlindMode reducedMotion : Bool)
    (updateDisplayPrefs updateAccessibility : Bool) : UpdateData :=
  { display_preferences :=
      if updateDisplayPrefs then some (stringifyDisplayPrefs theme fontSize)
      else none
    accessibility_settings :=
      if updateAccessibility then
        some (stringifyAccessibility colorBlindMode reducedMotion)
      else none }

/-- The in-memory state of the DisplaySettings component. -/
structure ComponentState where
  currentSettings : Option ThemeSettings
  theme : Theme
  fontSize : JsValue
  colorBlindMode : Bool
  reducedMotion : Bool
  hasChanges : Bool
  saving : Bool
deriving DecidableEq

/-- The first-render form state: the `useState` initial values, lines 17-24 of
DisplaySettings.tsx, taken from `DEFAULT_THEME_SETTINGS`. -/
def initialComponentState : ComponentState :=
  { currentSettings := none
    theme := DEFAULT_THEME_SETTINGS.theme
    fontSize := DEFAULT_THEME_SETTINGS.fontSize
    colorBlindMode := DEFAULT_THEME_SETTINGS.colorBlindMode
    reducedMotion := DEFAULT_THEME_SETTINGS.reducedMotion
    hasChanges := false
    saving := false }

/-- Result of the `loadPreferences` effect: the component state the scheduled
setter calls produce for the next render, the stores after the effect, the two
flags, and the `updateFields` call issued by `initializeDefaultSettings`
(`none` when no remote write happened). -/
structure LoadResult where
  state : ComponentState
  stores : Stores
  needsDisplayPrefsUpdate : Bool
  needsAccessibilityUpdate : Bool
  remoteWrite : Option UpdateData
deriving DecidableEq

/-- DisplaySettings.tsx lines 27-117, split on `auth.getCurrentUser()`.  The
values `initializeDefaultSettings` serializes are the first-render form-state
constants captured by the effect's closure (the module defaults), because the
`setTheme`/`setFontSize`/... calls earlier in the effect only change the next
render's state. -/
def loadPreferencesAux (s : Stores) (themeSettings : ThemeSettings) :
    Option UserRecord → LoadResult
  | none =>
      { state :=
          { currentSettings := some themeSettings
            theme := themeSettings.theme
            fontSize := themeSettings.fontSize
            colorBlindMode := themeSettings.colorBlindMode
            reducedMotion := themeSettings.reducedMotion
            hasChanges := false
            saving := false }
        stores := s
        needsDisplayPrefsUpdate := false
        needsAccessibilityUpdate := false
        remoteWrite := none }
  | some user =>
      let dr := reconDisplayField themeSettings user.display_preferences
      let ar := reconAccessField themeSettings user.accessibility_settings
      let st : ComponentState :=
        { currentSettings := some themeSettings
          theme := dr.theme
          fontSize := dr.fontSize
          colorBlindMode := ar.colorBlindMode
          reducedMotion := ar.reducedMotion
          hasChanges := dr.hasChanges || ar.hasChanges
          saving := false }
      if dr.needsDisplayPrefsUpdate ∨ ar.needsAccessibilityUpdate then
        let d := initializeDefaultSettings initialComponentState.theme
          initialComponentState.fontSize initialComponentState.colorBlindMode
          initialComponentState.reducedMotion
          dr.needsDisplayPrefsUpdate ar.needsAccessibilityUpdate
        if d.display_preferences ≠ none ∨ d.accessibility_settings ≠ none then
          { state := st
            stores := { s with remoteUser := some (applyUpdateFields user d) }
            needsDisplayPrefsUpdate := dr.needsDisplayPrefsUpdate
            needsAccessibilityUpdate := ar.needsAccessibilityUpdate
            remoteWrite := some d }
        else
          { state := st
            stores := s
            needsDisplayPrefsUpdate := dr.needsDisplayPrefsUpdate
            needsAccessibilityUpdate := ar.needsAccessibilityUpdate
            remoteWrite := none }
      else
        { state := st
          stores := s
          needsDisplayPrefsUpdate := dr.needsDisplayPrefsUpdate
          needsAccessibilityUpdate := ar.needsAccessibilityUpdate
          remoteWrite := none }

/-- The `loadPreferences` effect as a function of the stores. -/
def loadPreferences (s : Stores) : LoadResult :=
  loadPreferencesAux s (getThemeSettings s) s.remoteUser

/-- The valid fontSize enum of the spec's data model, used to quantify over
valid settings combinations. -/
inductive FontSize where
  | small
  | medium
  | large
  | extraLarge
deriving DecidableEq

/-- The option values of the fontSize select control. -/
def FontSize.toStr : FontSize → String
  | .small => "small"
  | .medium => "medium"
  | .large => "large"
  | .extraLarge => "extra-large"

/-- A persistence attempt made by `handleSubmit`, in program order. -/
inductive Effect where
  | localWrite (record : ThemeSettings)
  | remoteWrite (userId : String) (d : UpdateData)
deriving DecidableEq

/-- Whether an effect is a remote `updateFields` attempt. -/
def Effect.isRemote : Effect → Bool
  | .localWrite _ => false
  | .remoteWrite _ _ => true

/-- How a `handleSubmit` run ended; the taxonomy of §7 maps `authFailure` to
AuthenticationRequired and the two write failures to PersistenceError. -/
inductive SaveOutcome where
  | success
  | authFailure
  | localFailure
  | remoteFailure
deriving DecidableEq

/-- Which of the two external write operations fail during this attempt (the
stores themselves are external services that either apply the write or leave
their state unchanged and throw). -/
structure SaveEnv where
  localWriteFails : Bool
  remoteWriteFails : Bool
deriving DecidableEq

/-- Result of a `handleSubmit` run: next-render component state, stores after
the attempt, the ordered trace of attempted writes, the outcome, and which
toast was shown. -/
structure SubmitResult where
  state : ComponentState
  stores : Stores
  trace : List Effect
  outcome : SaveOutcome
  toastError : Bool
  toastSuccess : Bool
deriving DecidableEq

/-- The field map `handleSubmit` sends to `updateFields` (lines 223-230):
both serialized fields, unconditionally. -/
def saveUpdateData (cs : ComponentState) : UpdateData :=
  { display_preferences := some (stringifyDisplayPrefs cs.theme cs.fontSize)
    accessibility_settings :=
      some (stringifyAccessibility cs.colorBlindMode cs.reducedMotion) }

/-- The `ThemeSettings` object literal `handleSubmit` builds from the current
form state (lines 213-220 and 233-240), with the given `Date.now()` value. -/
def savedRecord (cs : ComponentState) (now : Nat) : ThemeSettings :=
  { id := "current"
    theme := cs.theme
    fontSize := cs.fontSize
    colorBlindMode := cs.colorBlindMode
    reducedMotion := cs.reducedMotion
    updatedAt := now }

/-- DisplaySettings.tsx lines 192-253, split on `auth.getCurrentUser()`.
`now1` and `now2` are the two `Date.now()` calls (lines 219 and 239).  On any
thrown error the catch block logs and shows the error toast, and the finally
block clears `saving`; no state set before the failing await is rolled back. -/
def handleSubmitAux (cs : ComponentState) (s : Stores) (env : SaveEnv)
    (now1 now2 : Nat) : Option UserRecord → SubmitResult
  | none =>
      { state := { cs with saving := false }
        stores := s
        trace := []
        outcome := .authFailure
        toastError := true
        toastSuccess := false }
  | some user =>
      let newRecord := savedRecord cs now1
      if env.localWriteFails then
        { state := { cs with saving := false }
          stores := s
          trace := [.localWrite newRecord]
          outcome := .localFailure
          toastError := true
          toastSuccess := false }
      else
        let s1 : Stores := { s with localRecord := some newRecord }
        let d := saveUpdateData cs
        if env.remoteWriteFails then
          { state := { cs with saving := false }
            stores := s1
            trace := [.localWrite newRecord, .remoteWrite user.id d]
            outcome := .remoteFailure
            toastError := true
            toastSuccess := false }
        else
          { state :=
              { cs with
                currentSettings := some (savedRecord cs now2)
                hasChanges := false
                saving := false }
            stores := { s1 with remoteUser := some (applyUpdateFields user d) }
            trace := [.localWrite newRecord, .remoteWrite user.id d]
            outcome := .success
            toastError := false
            toastSuccess := true }

/-- The `handleSubmit` handler as a function of the component state, the
stores and the failure environment. -/
def handleSubmit (cs : ComponentState) (s : Stores) (env : SaveEnv)
    (now1 now2 : Nat) : SubmitResult :=
  handleSubmitAux cs s env now1 now2 s.remoteUser

/-- Flipping the theme. -/
def Theme.flip : Theme → Theme
  | .light => .dark
  | .dark => .light

/-- Modelled from the spec: `toggleTheme` and `getCurrentTheme` live in
`src/utils/themeUtils`, which is not among the sources.  Per §4.5 and §6 the
shared utility flips the theme held by the Local Preference Store, fires the
process-wide "theme changed" broadcast event, and `getCurrentTheme` then reads
back the resulting theme.  Returns the stores after the flip, the new theme,
and whether the broadcast event fired. -/
def toggleThemeUtil (s : Stores) : Stores × Theme × Bool :=
  let record := getThemeSettings s
  let newRecord := { record with theme := record.theme.flip }
  ({ s with localRecord := some newRecord }, newRecord.theme, true)

/-- Result of a `handleToggle` run: the stores afterwards, the theme the
control displays, whether the broadcast event fired, and the `updateFields`
call issued (`none` when the Remote Profile Accessor was not contacted). -/
structure ToggleResult where
  stores : Stores
  displayedTheme : Theme
  eventFired : Bool
  remoteWrite : Option UpdateData
deriving DecidableEq

/-- ThemeToggle.tsx lines 48-78, split on `auth.getCurrentUser()`: when a
user is present the new theme is merged into the parsed remote
`display_preferences` (preserving its other properties), defaulting to
`{theme: newTheme, fontSize: 'medium'}` when the field is absent, blank or
unparseable, and written back. -/
def handleToggleAux (s1 : Stores) (newTheme : Theme) (fired : Bool) :
    Option UserRecord → ToggleResult
  | none =>
      { stores := s1
        displayedTheme := newTheme
        eventFired := fired
        remoteWrite := none }
  | some user =>
      let displayPreferences : DisplayPrefsObj :=
        match user.display_preferences with
        | .parsed o => { o with theme := some (.str newTheme.toStr) }
        | _ => { theme := some (.str newTheme.toStr)
                 fontSize := some (.str "medium") }
      let d : UpdateData :=
        { display_preferences := some (.parsed displayPreferences)
          accessibility_settings := none }
      { stores := { s1 with remoteUser := some (applyUpdateFields user d) }
        displayedTheme := newTheme
        eventFired := fired
        remoteWrite := some d }

/-- ThemeToggle.tsx lines 40-84: toggle locally via the shared utility, then
best-effort write the merged preferences back when authenticated. -/
def handleToggle (s : Stores) : ToggleResult :=
  let p := toggleThemeUtil s
  handleToggleAux p.1 p.2.1 p.2.2 p.1.remoteUser

/-! Concrete instances used by the claim theorems, counterexamples and
witnesses below. -/

def c1Base : ThemeSettings := ⟨"current", .dark, .str "small", false, false, 0⟩

def c1Stores : Stores :=
  ⟨some c1Base,
   some ⟨"u1", .absent, .parsed ⟨some (.bool false), some (.bool false)⟩⟩⟩

def c2State : ComponentState :=
  ⟨none, .light, .str "large", true, false, true, false⟩

def c2Stores : Stores := ⟨none, some ⟨"u1", .absent, .absent⟩⟩

def c3wState : ComponentState :=
  ⟨none, .light, .str "large", true, false, true, false⟩

def c3wUser : UserRecord := ⟨"u3", .absent, .absent⟩

def c3wStores : Stores := ⟨none, some c3wUser⟩

def c5Base : ThemeSettings := ⟨"current", .dark, .str "small", false, false, 0⟩

def c5Stores : Stores :=
  ⟨some c5Base,
   some ⟨"u5", .parsed ⟨some (.str "light"), some (.str "medium")⟩,
         .parsed ⟨some (.bool false), some (.bool false)⟩⟩⟩

def c6Base : ThemeSettings := ⟨"current", .dark, .str "medium", false, false, 0⟩

def c7Base : ThemeSettings := ⟨"current", .dark, .str "medium", false, false, 0⟩

def c7wBase : ThemeSettings := ⟨"current", .dark, .str "medium", false, false, 0⟩

def c8State : ComponentState :=
  ⟨none, .light, .str "small", false, true, true, false⟩

def c8User : UserRecord := ⟨"u8", .absent, .absent⟩

def c8Stores : Stores := ⟨none, some c8User⟩

def c9Base : ThemeSettings := ⟨"current", .dark, .str "large", true, false, 2⟩

def c9Stores : Stores := ⟨some c9Base, none⟩

def c10Base : ThemeSettings := ⟨"current", .dark, .str "medium", false, false, 0⟩

def c10Stores : Stores :=
  ⟨some c10Base,
   some ⟨"u10", .absent, .parsed ⟨some (.str "true"), some (.bool false)⟩⟩⟩

/-! Helper lemmas about the reconciliation functions. -/

lemma includesLightDark_iff (tv : Option JsValue) :
    includesLightDark tv = true ↔
      tv = some (.str "light") ∨ tv = some (.str "dark") := by
  unfold includesLightDark
  by_cases h : tv = some (JsValue.str "light") ∨ tv = some (JsValue.str "dark") <;>
    simp [h]

lemma reconTheme_self (t : Theme) :
    reconTheme t (some (.str t.toStr)) = (t, false, false) := by
  cases t <;> decide

lemma reconTheme_flag_valid (bt : Theme) (tv : Option JsValue)
    (h : includesLightDark tv = true) : (reconTheme bt tv).2.2 = false := by
  unfold reconTheme
  by_cases h1 : truthyOpt tv = true ∧ includesLightDark tv = true ∧
      tv ≠ some (JsValue.str bt.toStr)
  · rw [if_pos h1]
  · rw [if_neg h1, if_neg (not_not_intro h)]

lemma reconTheme_applied (bt : Theme) (tv : Option JsValue)
    (h : (reconTheme bt tv).1 ≠ bt) :
    includesLightDark tv = true ∧
    tv = some (.str (reconTheme bt tv).1.toStr) ∧
    tv ≠ some (.str bt.toStr) ∧ (reconTheme bt tv).2.1 = true := by
  unfold reconTheme at h ⊢
  by_cases h1 : truthyOpt tv = true ∧ includesLightDark tv = true ∧
      tv ≠ some (JsValue.str bt.toStr)
  · rw [if_pos h1] at h ⊢
    obtain ⟨-, hinc, hne⟩ := h1
    refine ⟨hinc, ?_, hne, rfl⟩
    rcases (includesLightDark_iff tv).mp hinc with h2 | h2 <;> subst h2 <;>
      simp [jsToTheme, Theme.toStr]
  · rw [if_neg h1] at h
    by_cases h2 : includesLightDark tv = true
    · rw [if_neg (not_not_intro h2)] at h
      exact absurd rfl h
    · rw [if_pos h2] at h
      exact absurd rfl h

lemma reconTheme_invalid (bt : Theme) (tv : Option JsValue)
    (hinc : includesLightDark tv = false) :
    reconTheme bt tv = (bt, false, true) := by
  unfold reconTheme
  rw [if_neg, if_pos]
  · intro h2
    rw [hinc] at h2
    exact Bool.false_ne_true h2
  · rintro ⟨-, h2, -⟩
    rw [hinc] at h2
    exact Bool.false_ne_true h2

lemma reconFontSize_self (b : JsValue) :
    reconFontSize b (some b) = (b, false) := by
  unfold reconFontSize
  rw [if_neg]
  rintro ⟨-, h⟩
  exact h rfl

lemma reconFontSize_applied (b : JsValue) (v : JsValue)
    (ht : v.truthy = true) (hne : v ≠ b) :
    reconFontSize b (some v) = (v, true) := by
  unfold reconFontSize
  rw [if_pos]
  · rfl
  · exact ⟨ht, by simpa using hne⟩

lemma reconBoolPref_self (b : Bool) :
    reconBoolPref b (some (.bool b)) = (b, false) := by
  unfold reconBoolPref
  rw [if_neg]
  rintro ⟨-, h⟩
  exact h rfl

lemma reconBoolPref_nonbool (b : Bool) (v : JsValue)
    (hb : isBoolOpt (some v) = false) : reconBoolPref b (some v) = (b, false) := by
  unfold reconBoolPref
  rw [if_neg]
  rintro ⟨h2, -⟩
  rw [hb] at h2
  exact Bool.false_ne_true h2

lemma toStr_injective (a b : Theme) (h : a.toStr = b.toStr) : a = b := by
  cases a <;> cases b <;> first | rfl | (exact absurd h (by decide))

lemma jsToTheme_some (tv : Option JsValue) (t : Theme)
    (h : jsToTheme tv = some t) : tv = some (.str t.toStr) := by
  unfold jsToTheme at h
  by_cases h1 : tv = some (JsValue.str "light")
  · rw [if_pos h1] at h
    obtain rfl := Option.some.inj h
    exact h1
  · rw [if_neg h1] at h
    by_cases h2 : tv = some (JsValue.str "dark")
    · rw [if_pos h2] at h
      obtain rfl := Option.some.inj h
      exact h2
    · rw [if_neg h2] at h
      exact absurd h (by simp)

lemma reconTheme_wins (bt : Theme) (tv : Option JsValue) (t : Theme)
    (h : jsToTheme tv = some t) (hne : t ≠ bt) :
    reconTheme bt tv = (t, true, false) := by
  have htv := jsToTheme_some tv t h
  unfold reconTheme
  rw [if_pos, h]
  · rfl
  · refine ⟨?_, ?_, ?_⟩
    · rw [htv]
      cases t <;> decide
    · rw [htv]
      cases t <;> decide
    · rw [htv]
      intro hcon
      exact hne (toStr_injective t bt (JsValue.str.inj (Option.some.inj hcon)))

lemma reconBoolPref_wins (base b : Bool) (hne : b ≠ base) :
    reconBoolPref base (some (.bool b)) = (b, true) := by
  unfold reconBoolPref
  rw [if_pos]
  · rfl
  · exact ⟨rfl, fun hcon =>
      hne (JsValue.bool.inj (Option.some.inj hcon))⟩

lemma reconDisplayField_parsed (base : ThemeSettings) (o : DisplayPrefsObj) :
    reconDisplayField base (.parsed o) =
      { theme := (reconTheme base.theme o.theme).1
        fontSize := (reconFontSize base.fontSize o.fontSize).1
        hasChanges := (reconTheme base.theme o.theme).2.1 ||
                      (reconFontSize base.fontSize o.fontSize).2
        needsDisplayPrefsUpdate := (reconTheme base.theme o.theme).2.2 } := rfl

lemma reconAccessField_parsed (base : ThemeSettings) (o : AccessObj) :
    reconAccessField base (.parsed o) =
      { colorBlindMode := (reconBoolPref base.colorBlindMode o.colorBlindMode).1
        reducedMotion := (reconBoolPref base.reducedMotion o.reducedMotion).1
        hasChanges := (reconBoolPref base.colorBlindMode o.colorBlindMode).2 ||
                      (reconBoolPref base.reducedMotion o.reducedMotion).2
        needsAccessibilityUpdate := false } := rfl

lemma reconDisplayField_stringify_flag (base : ThemeSettings) (t : Theme)
    (fs : JsValue) :
    (reconDisplayField base
      (stringifyDisplayPrefs t fs)).needsDisplayPrefsUpdate = false := by
  show (reconTheme base.theme (some (.str t.toStr))).2.2 = false
  refine reconTheme_flag_valid _ _ ?_
  cases t <;> decide

lemma reconAccessField_stringify_flag (base : ThemeSettings) (cb rm : Bool) :
    (reconAccessField base
      (stringifyAccessibility cb rm)).needsAccessibilityUpdate = false := rfl

lemma reconDisplayField_stringify_self (base : ThemeSettings) (t : Theme)
    (fs : JsValue) (h1 : base.theme = t) (h2 : base.fontSize = fs) :
    reconDisplayField base (stringifyDisplayPrefs t fs) =
      { theme := t, fontSize := fs, hasChanges := false
        needsDisplayPrefsUpdate := false } := by
  subst h1
  subst h2
  rw [stringifyDisplayPrefs, reconDisplayField_parsed, reconTheme_self,
    reconFontSize_self]
  rfl

lemma reconAccessField_stringify_self (base : ThemeSettings) (cb rm : Bool)
    (h1 : base.colorBlindMode = cb) (h2 : base.reducedMotion = rm) :
    reconAccessField base (stringifyAccessibility cb rm) =
      { colorBlindMode := cb, reducedMotion := rm, hasChanges := false
        needsAccessibilityUpdate := false } := by
  subst h1
  subst h2
  rw [stringifyAccessibility, reconAccessField_parsed, reconBoolPref_self,
    reconBoolPref_self]
  rfl

/-! Helper lemmas about `loadPreferences`. -/

lemma loadPreferences_some (s : Stores) (u : UserRecord)
    (hu : s.remoteUser = some u) :
    loadPreferences s = loadPreferencesAux s (getThemeSettings s) (some u) := by
  rw [loadPreferences, hu]

lemma loadPreferencesAux_state (s : Stores) (ts : ThemeSettings)
    (u : UserRecord) :
    (loadPreferencesAux s ts (some u)).state =
      { currentSettings := some ts
        theme := (reconDisplayField ts u.display_preferences).theme
        fontSize := (reconDisplayField ts u.display_preferences).fontSize
        colorBlindMode :=
          (reconAccessField ts u.accessibility_settings).colorBlindMode
        reducedMotion :=
          (reconAccessField ts u.accessibility_settings).reducedMotion
        hasChanges := (reconDisplayField ts u.display_preferences).hasChanges ||
          (reconAccessField ts u.accessibility_settings).hasChanges
        saving := false } := by
  simp only [loadPreferencesAux]
  by_cases hor : (reconDisplayField ts
        u.display_preferences).needsDisplayPrefsUpdate = true ∨
      (reconAccessField ts
        u.accessibility_settings).needsAccessibilityUpdate = true
  · rw [if_pos hor]
    by_cases hne : (initializeDefaultSettings initialComponentState.theme
          initialComponentState.fontSize initialComponentState.colorBlindMode
          initialComponentState.reducedMotion
          (reconDisplayField ts u.display_preferences).needsDisplayPrefsUpdate
          (reconAccessField ts
            u.accessibility_settings).needsAccessibilityUpdate).display_preferences
          ≠ none ∨
        (initializeDefaultSettings initialComponentState.theme
          initialComponentState.fontSize initialComponentState.colorBlindMode
          initialComponentState.reducedMotion
          (reconDisplayField ts u.display_preferences).needsDisplayPrefsUpdate
          (reconAccessField ts
            u.accessibility_settings).needsAccessibilityUpdate).accessibility_settings
          ≠ none
    · rw [if_pos hne]
    · rw [if_neg hne]
  · rw [if_neg hor]

lemma loadPreferencesAux_flags_eq (s : Stores) (ts : ThemeSettings)
    (u : UserRecord) :
    (loadPreferencesAux s ts (some u)).needsDisplayPrefsUpdate =
      (reconDisplayField ts u.display_preferences).needsDisplayPrefsUpdate ∧
    (loadPreferencesAux s ts (some u)).needsAccessibilityUpdate =
      (reconAccessField ts u.accessibility_settings).needsAccessibilityUpdate := by
  simp only [loadPreferencesAux]
  by_cases hor : (reconDisplayField ts
        u.display_preferences).needsDisplayPrefsUpdate = true ∨
      (reconAccessField ts
        u.accessibility_settings).needsAccessibilityUpdate = true
  · rw [if_pos hor]
    by_cases hne : (initializeDefaultSettings initialComponentState.theme
          initialComponentState.fontSize initialComponentState.colorBlindMode
          initialComponentState.reducedMotion
          (reconDisplayField ts u.display_preferences).needsDisplayPrefsUpdate
          (reconAccessField ts
            u.accessibility_settings).needsAccessibilityUpdate).display_preferences
          ≠ none ∨
        (initializeDefaultSettings initialComponentState.theme
          initialComponentState.fontSize initialComponentState.colorBlindMode
          initialComponentState.reducedMotion
          (reconDisplayField ts u.display_preferences).needsDisplayPrefsUpdate
          (reconAccessField ts
            u.accessibility_settings).needsAccessibilityUpdate).accessibility_settings
          ≠ none
    · rw [if_pos hne]
      exact ⟨rfl, rfl⟩
    · rw [if_neg hne]
      exact ⟨rfl, rfl⟩
  · rw [if_neg hor]
    exact ⟨rfl, rfl⟩

lemma initializeDefaultSettings_nonempty (t : Theme) (fs : JsValue)
    (cb rm : Bool) (f1 f2 : Bool) (hor : f1 = true ∨ f2 = true) :
    (initializeDefaultSettings t fs cb rm f1 f2).display_preferences ≠ none ∨
    (initializeDefaultSettings t fs cb rm f1 f2).accessibility_settings ≠ none := by
  rcases hor with h | h <;> simp [initializeDefaultSettings, h]

lemma loadPreferencesAux_noflags (s : Stores) (ts : ThemeSettings)
    (u : UserRecord)
    (h1 : (reconDisplayField ts u.display_preferences).needsDisplayPrefsUpdate
            = false)
    (h2 : (reconAccessField ts u.accessibility_settings).needsAccessibilityUpdate
            = false) :
    (loadPreferencesAux s ts (some u)).remoteWrite = none ∧
    (loadPreferencesAux s ts (some u)).stores = s := by
  simp only [loadPreferencesAux]
  rw [if_neg]
  · exact ⟨rfl, rfl⟩
  · rintro (h | h)
    · rw [h1] at h
      exact Bool.false_ne_true h
    · rw [h2] at h
      exact Bool.false_ne_true h

lemma loadPreferencesAux_write (s : Stores) (ts : ThemeSettings)
    (u : UserRecord)
    (hor : (reconDisplayField ts u.display_preferences).needsDisplayPrefsUpdate
             = true ∨
           (reconAccessField ts u.accessibility_settings).needsAccessibilityUpdate
             = true) :
    (loadPreferencesAux s ts (some u)).remoteWrite =
      some (initializeDefaultSettings initialComponentState.theme
        initialComponentState.fontSize initialComponentState.colorBlindMode
        initialComponentState.reducedMotion
        (reconDisplayField ts u.display_preferences).needsDisplayPrefsUpdate
        (reconAccessField ts u.accessibility_settings).needsAccessibilityUpdate) ∧
    (loadPreferencesAux s ts (some u)).stores =
      { s with remoteUser := some (applyUpdateFields u
          (initializeDefaultSettings initialComponentState.theme
            initialComponentState.fontSize initialComponentState.colorBlindMode
            initialComponentState.reducedMotion
            (reconDisplayField ts u.display_preferences).needsDisplayPrefsUpdate
            (reconAccessField ts
              u.accessibility_settings).needsAccessibilityUpdate)) } := by
  simp only [loadPreferencesAux]
  rw [if_pos hor, if_pos (initializeDefaultSettings_nonempty _ _ _ _ _ _ hor)]
  exact ⟨rfl, rfl⟩

lemma loadPreferences_localRecord (s : Stores) :
    (loadPreferences s).stores.localRecord = s.localRecord := by
  rw [loadPreferences]
  cases hu : s.remoteUser with
  | none => rfl
  | some u =>
      by_cases hor : (reconDisplayField (getThemeSettings s)
            u.display_preferences).needsDisplayPrefsUpdate = true ∨
          (reconAccessField (getThemeSettings s)
            u.accessibility_settings).needsAccessibilityUpdate = true
      · rw [(loadPreferencesAux_write s (getThemeSettings s) u hor).2]
      · push_neg at hor
        rw [(loadPreferencesAux_noflags s (getThemeSettings s) u
          (Bool.eq_false_iff.mpr hor.1) (Bool.eq_false_iff.mpr hor.2)).2]

/-! Helper lemmas about `handleSubmit`: one characterization per branch. -/

lemma handleSubmit_auth (cs : ComponentState) (s : Stores) (env : SaveEnv)
    (now1 now2 : Nat) (hu : s.remoteUser = none) :
    handleSubmit cs s env now1 now2 =
      { state := { cs with saving := false }
        stores := s
        trace := []
        outcome := .authFailure
        toastError := true
        toastSuccess := false } := by
  rw [handleSubmit, hu]
  rfl

lemma handleSubmit_localFail (cs : ComponentState) (s : Stores) (env : SaveEnv)
    (now1 now2 : Nat) (u : UserRecord) (hu : s.remoteUser = some u)
    (hl : env.localWriteFails = true) :
    handleSubmit cs s env now1 now2 =
      { state := { cs with saving := false }
        stores := s
        trace := [.localWrite (savedRecord cs now1)]
        outcome := .localFailure
        toastError := true
        toastSuccess := false } := by
  rw [handleSubmit, hu]
  simp only [handleSubmitAux]
  rw [if_pos hl]

lemma handleSubmit_remoteFail (cs : ComponentState) (s : Stores)
    (env : SaveEnv) (now1 now2 : Nat) (u : UserRecord)
    (hu : s.remoteUser = some u) (hl : env.localWriteFails = false)
    (hr : env.remoteWriteFails = true) :
    handleSubmit cs s env now1 now2 =
      { state := { cs with saving := false }
        stores := { s with localRecord := some (savedRecord cs now1) }
        trace := [.localWrite (savedRecord cs now1),
                  .remoteWrite u.id (saveUpdateData cs)]
        outcome := .remoteFailure
        toastError := true
        toastSuccess := false } := by
  rw [handleSubmit, hu]
  simp only [handleSubmitAux]
  rw [if_neg (by rw [hl]; exact Bool.false_ne_true), if_pos hr, hu]

lemma handleSubmit_success (cs : ComponentState) (s : Stores) (env : SaveEnv)
    (now1 now2 : Nat) (u : UserRecord) (hu : s.remoteUser = some u)
    (hl : env.localWriteFails = false) (hr : env.remoteWriteFails = false) :
    handleSubmit cs s env now1 now2 =
      { state :=
          { cs with
            currentSettings := some (savedRecord cs now2)
            hasChanges := false
            saving := false }
        stores :=
          { localRecord := some (savedRecord cs now1)
            remoteUser := some (applyUpdateFields u (saveUpdateData cs)) }
        trace := [.localWrite (savedRecord cs now1),
                  .remoteWrite u.id (saveUpdateData cs)]
        outcome := .success
        toastError := false
        toastSuccess := true } := by
  rw [handleSubmit, hu]
  simp only [handleSubmitAux]
  rw [if_neg (by rw [hl]; exact Bool.false_ne_true),
    if_neg (by rw [hr]; exact Bool.false_ne_true)]

/-! The claim theorems. -/


lemma getThemeSettings_set_remote (s : Stores) (x : Option UserRecord) :
    getThemeSettings { s with remoteUser := x } = getThemeSettings s := rfl

/-- Claim C1, amended: if either reconciliation flag is set at the end of
`loadPreferences`, exactly the flagged remote field(s) are written back, but
the serialized values for a flagged field are the first-render default form
values (`DEFAULT_THEME_SETTINGS`), captured by the effect's closure — not the
post-reconciliation working-state values. -/
theorem c1_flagged_write (s : Stores)
    (h : (loadPreferences s).needsDisplayPrefsUpdate = true ∨
         (loadPreferences s).needsAccessibilityUpdate = true) :
    (loadPreferences s).remoteWrite = some
      { display_preferences :=
          if (loadPreferences s).needsDisplayPrefsUpdate = true then
            some (stringifyDisplayPrefs DEFAULT_THEME_SETTINGS.theme
              DEFAULT_THEME_SETTINGS.fontSize)
          else none
        accessibility_settings :=
          if (loadPreferences s).needsAccessibilityUpdate = true then
            some (stringifyAccessibility DEFAULT_THEME_SETTINGS.colorBlindMode
              DEFAULT_THEME_SETTINGS.reducedMotion)
          else none } := by
  cases hu : s.remoteUser with
  | none =>
      rw [loadPreferences, hu] at h
      simp only [loadPreferencesAux] at h
      rcases h with h | h <;> exact absurd h (Bool.false_ne_true)
  | some u =>
      rw [loadPreferences_some s u hu] at h ⊢
      obtain ⟨hfd, hfa⟩ := loadPreferencesAux_flags_eq s (getThemeSettings s) u
      rw [hfd, hfa] at h ⊢
      rw [(loadPreferencesAux_write s (getThemeSettings s) u h).1]
      cases hf1 : (reconDisplayField (getThemeSettings s)
          u.display_preferences).needsDisplayPrefsUpdate <;>
        cases hf2 : (reconAccessField (getThemeSettings s)
            u.accessibility_settings).needsAccessibilityUpdate <;>
        first
          | (rw [hf1, hf2] at h
             rcases h with h | h <;> exact absurd h (Bool.false_ne_true))
          | rfl

/-- Claim C1, counterexample to the claim as stated: with a local record whose
fontSize is "small" and an absent remote `display_preferences`, the working
state after reconciliation is `(dark, "small")`, yet the flagged write
serializes `(dark, "medium")` — not the current working-state values. -/
theorem c1_counterexample :
    (loadPreferences c1Stores).needsDisplayPrefsUpdate = true ∧
    (loadPreferences c1Stores).state.theme = Theme.dark ∧
    (loadPreferences c1Stores).state.fontSize = JsValue.str "small" ∧
    (loadPreferences c1Stores).remoteWrite =
      some ⟨some (stringifyDisplayPrefs Theme.dark (JsValue.str "medium")),
            none⟩ ∧
    (⟨some (stringifyDisplayPrefs Theme.dark (JsValue.str "medium")),
      none⟩ : UpdateData).display_preferences ≠
      some (stringifyDisplayPrefs (loadPreferences c1Stores).state.theme
        (loadPreferences c1Stores).state.fontSize) := by decide

/-- Witness for `c1_flagged_write` at a concrete input. -/
theorem c1_witness :
    ((loadPreferences c1Stores).needsDisplayPrefsUpdate = true ∨
     (loadPreferences c1Stores).needsAccessibilityUpdate = true) ∧
    (loadPreferences c1Stores).remoteWrite = some
      { display_preferences :=
          if (loadPreferences c1Stores).needsDisplayPrefsUpdate = true then
            some (stringifyDisplayPrefs DEFAULT_THEME_SETTINGS.theme
              DEFAULT_THEME_SETTINGS.fontSize)
          else none
        accessibility_settings :=
          if (loadPreferences c1Stores).needsAccessibilityUpdate = true then
            some (stringifyAccessibility DEFAULT_THEME_SETTINGS.colorBlindMode
              DEFAULT_THEME_SETTINGS.reducedMotion)
          else none } :=
  ⟨Or.inl (by decide), c1_flagged_write c1Stores (Or.inl (by decide))⟩

/-- Claim C2, amended: every failed save leaves the in-memory form state
(including `currentSettings` and `hasChanges`) and the remote profile fields
unchanged and shows the failure toast; the Local Preference Store record is
unchanged when the failure is the authentication check or the local write
itself, but after a remote-write failure it holds the newly written record —
the preceding successful local write is not rolled back. -/
theorem c2_failed_save (cs : ComponentState) (s : Stores) (env : SaveEnv)
    (now1 now2 : Nat)
    (h : (handleSubmit cs s env now1 now2).outcome ≠ SaveOutcome.success) :
    (handleSubmit cs s env now1 now2).state = { cs with saving := false } ∧
    (handleSubmit cs s env now1 now2).stores.remoteUser = s.remoteUser ∧
    (handleSubmit cs s env now1 now2).toastError = true ∧
    ((handleSubmit cs s env now1 now2).outcome = SaveOutcome.localFailure ∨
     (handleSubmit cs s env now1 now2).outcome = SaveOutcome.authFailure →
      (handleSubmit cs s env now1 now2).stores = s) ∧
    ((handleSubmit cs s env now1 now2).outcome = SaveOutcome.remoteFailure →
      (handleSubmit cs s env now1 now2).stores.localRecord =
        some (savedRecord cs now1)) := by
  cases hu : s.remoteUser with
  | none =>
      rw [handleSubmit_auth cs s env now1 now2 hu]
      refine ⟨rfl, hu, rfl, fun _ => rfl, fun hcon => ?_⟩
      exact absurd hcon (by simp)
  | some u =>
      cases hl : env.localWriteFails with
      | true =>
          rw [handleSubmit_localFail cs s env now1 now2 u hu hl]
          refine ⟨rfl, hu, rfl, fun _ => rfl, fun hcon => ?_⟩
          exact absurd hcon (by simp)
      | false =>
          cases hr : env.remoteWriteFails with
          | true =>
              rw [handleSubmit_remoteFail cs s env now1 now2 u hu hl hr]
              refine ⟨rfl, hu, rfl, fun hcon => ?_, fun _ => rfl⟩
              rcases hcon with hcon | hcon <;> exact absurd hcon (by simp)
          | false =>
              rw [handleSubmit_success cs s env now1 now2 u hu hl hr] at h
              exact absurd rfl h

/-- Claim C2, counterexample to the claim as stated: a save whose remote write
fails is a PersistenceError, yet the Local Preference Store record was
changed by the failed attempt. -/
theorem c2_counterexample :
    (handleSubmit c2State c2Stores ⟨false, true⟩ 10 11).outcome =
      SaveOutcome.remoteFailure ∧
    (handleSubmit c2State c2Stores ⟨false, true⟩ 10 11).stores.localRecord ≠
      c2Stores.localRecord := by decide

/-- Witness for `c2_failed_save` at a concrete input. -/
theorem c2_witness :
    (handleSubmit c2State c2Stores ⟨false, true⟩ 10 11).outcome ≠
      SaveOutcome.success ∧
    ((handleSubmit c2State c2Stores ⟨false, true⟩ 10 11).state =
      { c2State with saving := false } ∧
    (handleSubmit c2State c2Stores ⟨false, true⟩ 10 11).stores.remoteUser =
      c2Stores.remoteUser ∧
    (handleSubmit c2State c2Stores ⟨false, true⟩ 10 11).toastError = true ∧
    ((handleSubmit c2State c2Stores ⟨false, true⟩ 10 11).outcome =
        SaveOutcome.localFailure ∨
     (handleSubmit c2State c2Stores ⟨false, true⟩ 10 11).outcome =
        SaveOutcome.authFailure →
      (handleSubmit c2State c2Stores ⟨false, true⟩ 10 11).stores = c2Stores) ∧
    ((handleSubmit c2State c2Stores ⟨false, true⟩ 10 11).outcome =
        SaveOutcome.remoteFailure →
      (handleSubmit c2State c2Stores ⟨false, true⟩ 10 11).stores.localRecord =
        some (savedRecord c2State 10))) :=
  ⟨by decide, c2_failed_save c2State c2Stores ⟨false, true⟩ 10 11 (by decide)⟩

/-- Claim C3: for every valid combination of theme, fontSize, colorBlindMode and
reducedMotion, a successful `save()` of that combination followed by a fresh
load reproduces exactly that combination, from both the Local Preference
Store record and the Remote Profile fields, with `hasChanges` false and no
reconciliation write-back. -/
theorem c3_save_load_roundtrip (t : Theme) (fsz : FontSize) (cb rm : Bool)
    (cs : ComponentState) (s : Stores) (u : UserRecord) (now1 now2 : Nat)
    (hu : s.remoteUser = some u)
    (ht : cs.theme = t) (hf : cs.fontSize = .str fsz.toStr)
    (hc : cs.colorBlindMode = cb) (hr : cs.reducedMotion = rm) :
    (handleSubmit cs s ⟨false, false⟩ now1 now2).outcome = .success ∧
    (handleSubmit cs s ⟨false, false⟩ now1 now2).stores.localRecord =
      some ⟨"current", t, .str fsz.toStr, cb, rm, now1⟩ ∧
    (handleSubmit cs s ⟨false, false⟩ now1 now2).stores.remoteUser =
      some { u with
        display_preferences := stringifyDisplayPrefs t (.str fsz.toStr)
        accessibility_settings := stringifyAccessibility cb rm } ∧
    (loadPreferences
      (handleSubmit cs s ⟨false, false⟩ now1 now2).stores).state.theme = t ∧
    (loadPreferences
      (handleSubmit cs s ⟨false, false⟩ now1 now2).stores).state.fontSize =
      .str fsz.toStr ∧
    (loadPreferences
      (handleSubmit cs s ⟨false, false⟩ now1 now2).stores).state.colorBlindMode
      = cb ∧
    (loadPreferences
      (handleSubmit cs s ⟨false, false⟩ now1 now2).stores).state.reducedMotion
      = rm ∧
    (loadPreferences
      (handleSubmit cs s ⟨false, false⟩ now1 now2).stores).state.hasChanges
      = false ∧
    (loadPreferences
      (handleSubmit cs s ⟨false, false⟩ now1 now2).stores).remoteWrite
      = none := by
  subst ht
  subst hc
  subst hr
  rw [← hf]
  rw [handleSubmit_success cs s ⟨false, false⟩ now1 now2 u hu rfl rfl]
  have hrec : savedRecord cs now1 =
      ⟨"current", cs.theme, cs.fontSize, cs.colorBlindMode, cs.reducedMotion,
       now1⟩ := rfl
  have hupd : applyUpdateFields u (saveUpdateData cs) =
      { u with
        display_preferences := stringifyDisplayPrefs cs.theme cs.fontSize
        accessibility_settings :=
          stringifyAccessibility cs.colorBlindMode cs.reducedMotion } := rfl
  refine ⟨rfl, rfl, by rw [hupd], ?_⟩
  set s2 : Stores :=
    { localRecord := some (savedRecord cs now1)
      remoteUser := some (applyUpdateFields u (saveUpdateData cs)) } with hs2
  have hu2 : s2.remoteUser = some (applyUpdateFields u (saveUpdateData cs)) := rfl
  have hts : getThemeSettings s2 = savedRecord cs now1 := rfl
  rw [loadPreferences_some s2 _ hu2, hts]
  have hdp : (applyUpdateFields u (saveUpdateData cs)).display_preferences =
      stringifyDisplayPrefs cs.theme cs.fontSize := rfl
  have has : (applyUpdateFields u (saveUpdateData cs)).accessibility_settings =
      stringifyAccessibility cs.colorBlindMode cs.reducedMotion := rfl
  have hdr : reconDisplayField (savedRecord cs now1)
      (stringifyDisplayPrefs cs.theme cs.fontSize) =
      { theme := cs.theme, fontSize := cs.fontSize, hasChanges := false
        needsDisplayPrefsUpdate := false } :=
    reconDisplayField_stringify_self _ _ _ rfl rfl
  have har : reconAccessField (savedRecord cs now1)
      (stringifyAccessibility cs.colorBlindMode cs.reducedMotion) =
      { colorBlindMode := cs.colorBlindMode, reducedMotion := cs.reducedMotion
        hasChanges := false, needsAccessibilityUpdate := false } :=
    reconAccessField_stringify_self _ _ _ rfl rfl
  have hst := loadPreferencesAux_state s2 (savedRecord cs now1)
    (applyUpdateFields u (saveUpdateData cs))
  rw [hdp, has, hdr, har] at hst
  have hwr := loadPreferencesAux_noflags s2 (savedRecord cs now1)
    (applyUpdateFields u (saveUpdateData cs))
    (by rw [hdp, hdr]) (by rw [has, har])
  rw [hst]
  exact ⟨rfl, rfl, rfl, rfl, rfl, hwr.1⟩

/-- Witness for `c3_save_load_roundtrip` at a concrete input. -/
theorem c3_witness :
    (handleSubmit c3wState c3wStores ⟨false, false⟩ 7 8).outcome = .success ∧
    (handleSubmit c3wState c3wStores ⟨false, false⟩ 7 8).stores.localRecord =
      some ⟨"current", .light, .str "large", true, false, 7⟩ ∧
    (handleSubmit c3wState c3wStores ⟨false, false⟩ 7 8).stores.remoteUser =
      some { c3wUser with
        display_preferences := stringifyDisplayPrefs .light (.str "large")
        accessibility_settings := stringifyAccessibility true false } ∧
    (loadPreferences
      (handleSubmit c3wState c3wStores ⟨false, false⟩ 7 8).stores).state.theme
      = .light ∧
    (loadPreferences
      (handleSubmit c3wState c3wStores
        ⟨false, false⟩ 7 8).stores).state.fontSize = .str "large" ∧
    (loadPreferences
      (handleSubmit c3wState c3wStores
        ⟨false, false⟩ 7 8).stores).state.colorBlindMode = true ∧
    (loadPreferences
      (handleSubmit c3wState c3wStores
        ⟨false, false⟩ 7 8).stores).state.reducedMotion = false ∧
    (loadPreferences
      (handleSubmit c3wState c3wStores
        ⟨false, false⟩ 7 8).stores).state.hasChanges = false ∧
    (loadPreferences
      (handleSubmit c3wState c3wStores ⟨false, false⟩ 7 8).stores).remoteWrite
      = none :=
  c3_save_load_roundtrip .light .large true false c3wState c3wStores c3wUser
    7 8 rfl rfl rfl rfl rfl

/-- Claim C4: reconciliation is write-idempotent — for every state of the Local
Preference Store and every user record, running `loadPreferences`, letting
its remote write-back (if any) take effect on the user record, and running it
again with otherwise unchanged inputs produces no remote write the second
time. -/
theorem c4_recon_idempotent (s : Stores) :
    (loadPreferences (loadPreferences s).stores).remoteWrite = none := by
  cases hu : s.remoteUser with
  | none =>
      have hs : (loadPreferences s).stores = s := by
        rw [loadPreferences, hu]
        rfl
      rw [hs, loadPreferences, hu]
      rfl
  | some u =>
      rw [loadPreferences_some s u hu]
      by_cases hor :
          (reconDisplayField (getThemeSettings s)
            u.display_preferences).needsDisplayPrefsUpdate = true ∨
          (reconAccessField (getThemeSettings s)
            u.accessibility_settings).needsAccessibilityUpdate = true
      · rw [(loadPreferencesAux_write s (getThemeSettings s) u hor).2]
        rw [loadPreferences_some _ _ rfl, getThemeSettings_set_remote]
        refine (loadPreferencesAux_noflags _ _ _ ?_ ?_).1
        · cases hf1 : (reconDisplayField (getThemeSettings s)
              u.display_preferences).needsDisplayPrefsUpdate with
          | false =>
              simpa [applyUpdateFields, initializeDefaultSettings] using hf1
          | true =>
              simp [applyUpdateFields, initializeDefaultSettings,
                reconDisplayField_stringify_flag]
        · cases hf2 : (reconAccessField (getThemeSettings s)
              u.accessibility_settings).needsAccessibilityUpdate with
          | false =>
              simpa [applyUpdateFields, initializeDefaultSettings] using hf2
          | true =>
              simp [applyUpdateFields, initializeDefaultSettings,
                reconAccessField_stringify_flag]
      · push_neg at hor
        have h1 := Bool.eq_false_iff.mpr hor.1
        have h2 := Bool.eq_false_iff.mpr hor.2
        rw [(loadPreferencesAux_noflags s (getThemeSettings s) u h1 h2).2]
        rw [loadPreferences_some s u hu]
        exact (loadPreferencesAux_noflags s (getThemeSettings s) u h1 h2).1

/-- Claim C5: a valid differing remote value always wins over the local value
in the working form state — universally, for each dimension: a remote theme in
{light, dark} differing from the base theme, a truthy remote fontSize
differing from the base fontSize, and a strictly boolean colorBlindMode or
reducedMotion differing from its base value, are each applied to the working
state with `hasChanges` true — and the Local Preference Store record is never
mutated by reconciliation itself (only a later explicit save updates it).  The
spec's concrete scenario (remote `{theme: light, fontSize: medium}` against
local `{dark, small}` yielding working light/medium, `hasChanges` true, store
untouched) is included. -/
theorem c5_remote_wins_local_untouched :
    (∀ s u o t, s.remoteUser = some u →
      u.display_preferences = .parsed o →
      jsToTheme o.theme = some t → t ≠ (getThemeSettings s).theme →
      (loadPreferences s).state.theme = t ∧
      (loadPreferences s).state.hasChanges = true) ∧
    (∀ s u o v, s.remoteUser = some u →
      u.display_preferences = .parsed o →
      o.fontSize = some v → v.truthy = true →
      v ≠ (getThemeSettings s).fontSize →
      (loadPreferences s).state.fontSize = v ∧
      (loadPreferences s).state.hasChanges = true) ∧
    (∀ s u o b, s.remoteUser = some u →
      u.accessibility_settings = .parsed o →
      o.colorBlindMode = some (.bool b) →
      b ≠ (getThemeSettings s).colorBlindMode →
      (loadPreferences s).state.colorBlindMode = b ∧
      (loadPreferences s).state.hasChanges = true) ∧
    (∀ s u o b, s.remoteUser = some u →
      u.accessibility_settings = .parsed o →
      o.reducedMotion = some (.bool b) →
      b ≠ (getThemeSettings s).reducedMotion →
      (loadPreferences s).state.reducedMotion = b ∧
      (loadPreferences s).state.hasChanges = true) ∧
    (∀ s : Stores, (loadPreferences s).stores.localRecord = s.localRecord) ∧
    (loadPreferences c5Stores).state.theme = Theme.light ∧
    (loadPreferences c5Stores).state.fontSize = JsValue.str "medium" ∧
    (loadPreferences c5Stores).state.hasChanges = true ∧
    (loadPreferences c5Stores).stores.localRecord = some c5Base ∧
    (loadPreferences c5Stores).remoteWrite = none := by
  refine ⟨?_, ?_, ?_, ?_, loadPreferences_localRecord, by decide, by decide,
    by decide, by decide, by decide⟩
  · intro s u o t hu hdp hth hne
    rw [loadPreferences_some s u hu, loadPreferencesAux_state, hdp,
      reconDisplayField_parsed]
    have hrt := reconTheme_wins (getThemeSettings s).theme o.theme t hth hne
    constructor
    · show (reconTheme (getThemeSettings s).theme o.theme).1 = t
      rw [hrt]
    · show (((reconTheme (getThemeSettings s).theme o.theme).2.1 ||
        (reconFontSize (getThemeSettings s).fontSize o.fontSize).2) ||
        (reconAccessField (getThemeSettings s)
          u.accessibility_settings).hasChanges) = true
      rw [hrt]
      simp
  · intro s u o v hu hdp hv ht hne
    rw [loadPreferences_some s u hu, loadPreferencesAux_state, hdp,
      reconDisplayField_parsed]
    have hrf : reconFontSize (getThemeSettings s).fontSize o.fontSize =
        (v, true) := by
      rw [hv]
      exact reconFontSize_applied _ v ht hne
    constructor
    · show (reconFontSize (getThemeSettings s).fontSize o.fontSize).1 = v
      rw [hrf]
    · show (((reconTheme (getThemeSettings s).theme o.theme).2.1 ||
        (reconFontSize (getThemeSettings s).fontSize o.fontSize).2) ||
        (reconAccessField (getThemeSettings s)
          u.accessibility_settings).hasChanges) = true
      rw [hrf]
      simp
  · intro s u o b hu ha hv hne
    rw [loadPreferences_some s u hu, loadPreferencesAux_state, ha,
      reconAccessField_parsed]
    have hrb : reconBoolPref (getThemeSettings s).colorBlindMode
        o.colorBlindMode = (b, true) := by
      rw [hv]
      exact reconBoolPref_wins _ b hne
    constructor
    · show (reconBoolPref (getThemeSettings s).colorBlindMode
        o.colorBlindMode).1 = b
      rw [hrb]
    · show ((reconDisplayField (getThemeSettings s)
          u.display_preferences).hasChanges ||
        ((reconBoolPref (getThemeSettings s).colorBlindMode
            o.colorBlindMode).2 ||
         (reconBoolPref (getThemeSettings s).reducedMotion
            o.reducedMotion).2)) = true
      rw [hrb]
      simp
  · intro s u o b hu ha hv hne
    rw [loadPreferences_some s u hu, loadPreferencesAux_state, ha,
      reconAccessField_parsed]
    have hrb : reconBoolPref (getThemeSettings s).reducedMotion
        o.reducedMotion = (b, true) := by
      rw [hv]
      exact reconBoolPref_wins _ b hne
    constructor
    · show (reconBoolPref (getThemeSettings s).reducedMotion
        o.reducedMotion).1 = b
      rw [hrb]
    · show ((reconDisplayField (getThemeSettings s)
          u.display_preferences).hasChanges ||
        ((reconBoolPref (getThemeSettings s).colorBlindMode
            o.colorBlindMode).2 ||
         (reconBoolPref (getThemeSettings s).reducedMotion
            o.reducedMotion).2)) = true
      rw [hrb]
      simp

/-- Witness for `c5_remote_wins_local_untouched`: the universal theme-wins
conjunct applied at the spec's concrete scenario. -/
theorem c5_witness :
    (loadPreferences c5Stores).state.theme = Theme.light ∧
    (loadPreferences c5Stores).state.hasChanges = true :=
  c5_remote_wins_local_untouched.1 c5Stores
    ⟨"u5", .parsed ⟨some (.str "light"), some (.str "medium")⟩,
     .parsed ⟨some (.bool false), some (.bool false)⟩⟩
    ⟨some (.str "light"), some (.str "medium")⟩ Theme.light rfl rfl
    (by decide) (by decide)

/-- Claim C6: during reconciliation of a parseable `display_preferences` field
the remote theme is applied to working state (marking unsaved changes) only
if it is light or dark and differs from the base theme; a present but invalid
theme value leaves the working theme at the base value and flags
`needsDisplayPrefsUpdate`. -/
theorem c6_theme_validation (base : ThemeSettings) (o : DisplayPrefsObj) :
    ((reconDisplayField base (.parsed o)).theme ≠ base.theme →
      includesLightDark o.theme = true ∧
      o.theme = some (.str (reconDisplayField base (.parsed o)).theme.toStr) ∧
      o.theme ≠ some (.str base.theme.toStr) ∧
      (reconDisplayField base (.parsed o)).hasChanges = true) ∧
    (∀ v, o.theme = some v → includesLightDark o.theme = false →
      (reconDisplayField base (.parsed o)).theme = base.theme ∧
      (reconDisplayField base (.parsed o)).needsDisplayPrefsUpdate = true) := by
  rw [reconDisplayField_parsed]
  constructor
  · intro hne
    have h := reconTheme_applied base.theme o.theme hne
    refine ⟨h.1, h.2.1, h.2.2.1, ?_⟩
    show ((reconTheme base.theme o.theme).2.1 ||
      (reconFontSize base.fontSize o.fontSize).2) = true
    rw [h.2.2.2, Bool.true_or]
  · intro v hv hinc
    rw [reconTheme_invalid base.theme o.theme hinc]
    exact ⟨rfl, rfl⟩

/-- Witness for `c6_theme_validation` at the spec's "purple" input. -/
theorem c6_witness :
    (reconDisplayField c6Base
      (.parsed ⟨some (JsValue.str "purple"), none⟩)).theme = c6Base.theme ∧
    (reconDisplayField c6Base
      (.parsed ⟨some (JsValue.str "purple"),
        none⟩)).needsDisplayPrefsUpdate = true :=
  (c6_theme_validation c6Base ⟨some (JsValue.str "purple"), none⟩).2
    (JsValue.str "purple") rfl (by decide)

/-- Claim C7, amended: every present and truthy (in the JS sense) fontSize value
that differs from the base fontSize is applied to working state and marks
unsaved changes, with no validation against the fontSize enum; present but
falsy values (such as the empty string) are ignored. -/
theorem c7_truthy_fontSize_applied (base : ThemeSettings) (o : DisplayPrefsObj)
    (v : JsValue) (hv : o.fontSize = some v) (ht : v.truthy = true)
    (hne : v ≠ base.fontSize) :
    (reconDisplayField base (.parsed o)).fontSize = v ∧
    (reconDisplayField base (.parsed o)).hasChanges = true := by
  rw [reconDisplayField_parsed]
  have hfs : reconFontSize base.fontSize o.fontSize = (v, true) := by
    rw [hv]
    exact reconFontSize_applied base.fontSize v ht hne
  constructor
  · show (reconFontSize base.fontSize o.fontSize).1 = v
    rw [hfs]
  · show ((reconTheme base.theme o.theme).2.1 ||
      (reconFontSize base.fontSize o.fontSize).2) = true
    rw [hfs]
    exact Bool.or_true _

/-- Claim C7, counterexample to the claim as stated: the empty string is a
present fontSize value that differs from the base fontSize, yet it is not
applied and does not mark unsaved changes (the code requires truthiness, not
mere presence). -/
theorem c7_counterexample :
    (⟨none, some (JsValue.str "")⟩ : DisplayPrefsObj).fontSize ≠ none ∧
    JsValue.str "" ≠ c7Base.fontSize ∧
    (reconDisplayField c7Base
      (.parsed ⟨none, some (JsValue.str "")⟩)).fontSize = c7Base.fontSize ∧
    (reconDisplayField c7Base
      (.parsed ⟨none, some (JsValue.str "")⟩)).hasChanges = false := by decide

/-- Witness for `c7_truthy_fontSize_applied` at a non-enum truthy value,
exhibiting the absence of enum validation. -/
theorem c7_witness :
    (reconDisplayField c7wBase
      (.parsed ⟨none, some (JsValue.str "gigantic")⟩)).fontSize =
      JsValue.str "gigantic" ∧
    (reconDisplayField c7wBase
      (.parsed ⟨none, some (JsValue.str "gigantic")⟩)).hasChanges = true :=
  c7_truthy_fontSize_applied c7wBase ⟨none, some (JsValue.str "gigantic")⟩
    (JsValue.str "gigantic") rfl (by decide) (by decide)

/-- Claim C8: within every `save()` execution the local write is attempted before
the remote write (any remote write attempt in the trace implies the first
effect is the local write of the new record), and when the remote write fails
after a successful local write, the local record keeps the newly written
values and the trace holds exactly one local write — neither retried nor
rolled back. -/
theorem c8_local_before_remote (cs : ComponentState) (s : Stores)
    (env : SaveEnv) (now1 now2 : Nat) :
    (∀ e ∈ (handleSubmit cs s env now1 now2).trace, e.isRemote = true →
      (handleSubmit cs s env now1 now2).trace.head? =
        some (Effect.localWrite (savedRecord cs now1))) ∧
    (∀ u, s.remoteUser = some u → env.localWriteFails = false →
      env.remoteWriteFails = true →
      (handleSubmit cs s env now1 now2).outcome = SaveOutcome.remoteFailure ∧
      (handleSubmit cs s env now1 now2).stores.localRecord =
        some (savedRecord cs now1) ∧
      (handleSubmit cs s env now1 now2).trace =
        [Effect.localWrite (savedRecord cs now1),
         Effect.remoteWrite u.id (saveUpdateData cs)]) := by
  cases hu : s.remoteUser with
  | none =>
      rw [handleSubmit_auth cs s env now1 now2 hu]
      refine ⟨?_, ?_⟩
      · intro e he
        simp at he
      · intro u hcon
        exact absurd hcon (by simp)
  | some u =>
      cases hl : env.localWriteFails with
      | true =>
          rw [handleSubmit_localFail cs s env now1 now2 u hu hl]
          refine ⟨?_, ?_⟩
          · intro e he hrem
            simp at he
            rw [he] at hrem
            exact absurd hrem (by simp [Effect.isRemote])
          · intro u' hu' hl'
            exact absurd hl' (by simp)
      | false =>
          cases hr : env.remoteWriteFails with
          | true =>
              rw [handleSubmit_remoteFail cs s env now1 now2 u hu hl hr]
              refine ⟨fun e he hrem => rfl, ?_⟩
              intro u' hu' hl' hr'
              obtain rfl := Option.some.inj hu'
              exact ⟨rfl, rfl, rfl⟩
          | false =>
              rw [handleSubmit_success cs s env now1 now2 u hu hl hr]
              refine ⟨fun e he hrem => rfl, ?_⟩
              intro u' hu' hl' hr'
              exact absurd hr' (by simp)

/-- Witness for `c8_local_before_remote` at a concrete remote-failure input. -/
theorem c8_witness :
    (handleSubmit c8State c8Stores ⟨false, true⟩ 3 4).outcome =
      SaveOutcome.remoteFailure ∧
    (handleSubmit c8State c8Stores ⟨false, true⟩ 3 4).stores.localRecord =
      some (savedRecord c8State 3) ∧
    (handleSubmit c8State c8Stores ⟨false, true⟩ 3 4).trace =
      [Effect.localWrite (savedRecord c8State 3),
       Effect.remoteWrite c8User.id (saveUpdateData c8State)] :=
  (c8_local_before_remote c8State c8Stores ⟨false, true⟩ 3 4).2 c8User rfl
    rfl rfl

/-- Claim C9: toggling the theme with no authenticated user still flips the
theme held by the Local Preference Store and fires the theme-changed
broadcast event, and the Remote Profile Accessor is never contacted — no
`updateFields` call occurs. -/
theorem c9_toggle_unauthenticated (s : Stores) (h : s.remoteUser = none) :
    (handleToggle s).remoteWrite = none ∧
    (handleToggle s).eventFired = true ∧
    (handleToggle s).stores.localRecord =
      some { getThemeSettings s with
        theme := (getThemeSettings s).theme.flip } ∧
    (handleToggle s).stores.remoteUser = none ∧
    (handleToggle s).displayedTheme = (getThemeSettings s).theme.flip := by
  have hp : (toggleThemeUtil s).1.remoteUser = s.remoteUser := rfl
  rw [handleToggle]
  simp only [hp, h]
  exact ⟨rfl, rfl, rfl, h, rfl⟩

/-- Witness for `c9_toggle_unauthenticated` at a concrete input. -/
theorem c9_witness :
    (handleToggle c9Stores).remoteWrite = none ∧
    (handleToggle c9Stores).eventFired = true ∧
    (handleToggle c9Stores).stores.localRecord =
      some { getThemeSettings c9Stores with
        theme := (getThemeSettings c9Stores).theme.flip } ∧
    (handleToggle c9Stores).stores.remoteUser = none ∧
    (handleToggle c9Stores).displayedTheme =
      (getThemeSettings c9Stores).theme.flip :=
  c9_toggle_unauthenticated c9Stores rfl

/-- Claim C10: during reconciliation of a parseable `accessibility_settings`
field, a present but non-boolean colorBlindMode or reducedMotion value is
silently ignored — it is neither applied to working state nor does it set
`needsAccessibilityUpdate` — so the remote write-back, if any, never contains
the `accessibility_settings` field. -/
theorem c10_nonboolean_ignored (base : ThemeSettings) (o : AccessObj)
    (s : Stores) (u : UserRecord) :
    (reconAccessField base (.parsed o)).needsAccessibilityUpdate = false ∧
    (∀ v, o.colorBlindMode = some v → isBoolOpt (some v) = false →
      (reconAccessField base (.parsed o)).colorBlindMode =
        base.colorBlindMode) ∧
    (∀ v, o.reducedMotion = some v → isBoolOpt (some v) = false →
      (reconAccessField base (.parsed o)).reducedMotion =
        base.reducedMotion) ∧
    (s.remoteUser = some u → u.accessibility_settings = .parsed o →
      ∀ d, (loadPreferences s).remoteWrite = some d →
        d.accessibility_settings = none) := by
  refine ⟨rfl, ?_, ?_, ?_⟩
  · intro v hv hb
    rw [reconAccessField_parsed]
    show (reconBoolPref base.colorBlindMode o.colorBlindMode).1 =
      base.colorBlindMode
    rw [hv, reconBoolPref_nonbool base.colorBlindMode v hb]
  · intro v hv hb
    rw [reconAccessField_parsed]
    show (reconBoolPref base.reducedMotion o.reducedMotion).1 =
      base.reducedMotion
    rw [hv, reconBoolPref_nonbool base.reducedMotion v hb]
  · intro hu ha d hw
    rw [loadPreferences_some s u hu] at hw
    have hf2 : (reconAccessField (getThemeSettings s)
        u.accessibility_settings).needsAccessibilityUpdate = false := by
      rw [ha, reconAccessField_parsed]
    by_cases hor : (reconDisplayField (getThemeSettings s)
          u.display_preferences).needsDisplayPrefsUpdate = true ∨
        (reconAccessField (getThemeSettings s)
          u.accessibility_settings).needsAccessibilityUpdate = true
    · rw [(loadPreferencesAux_write s (getThemeSettings s) u hor).1] at hw
      obtain hd := Option.some.inj hw
      rw [← hd]
      simp [initializeDefaultSettings, hf2]
    · push_neg at hor
      rw [(loadPreferencesAux_noflags s (getThemeSettings s) u
        (Bool.eq_false_iff.mpr hor.1) (Bool.eq_false_iff.mpr hor.2)).1] at hw
      exact absurd hw (by simp)

/-- Witness for `c10_nonboolean_ignored`: the string "true" is ignored and the
write-back at a concrete input carries no accessibility field. -/
theorem c10_witness :
    (reconAccessField c10Base
      (.parsed ⟨some (JsValue.str "true"),
        some (JsValue.bool false)⟩)).colorBlindMode = c10Base.colorBlindMode ∧
    (⟨some (stringifyDisplayPrefs Theme.dark (JsValue.str "medium")),
      none⟩ : UpdateData).accessibility_settings = none :=
  ⟨(c10_nonboolean_ignored c10Base
      ⟨some (JsValue.str "true"), some (JsValue.bool false)⟩ c10Stores
      ⟨"u10", .absent,
       .parsed ⟨some (.str "true"), some (.bool false)⟩⟩).2.1
      (JsValue.str "true") rfl (by decide),
   (c10_nonboolean_ignored c10Base
      ⟨some (JsValue.str "true"), some (JsValue.bool false)⟩ c10Stores
      ⟨"u10", .absent,
       .parsed ⟨some (.str "true"), some (.bool false)⟩⟩).2.2.2
      rfl rfl
      ⟨some (stringifyDisplayPrefs Theme.dark (JsValue.str "medium")), none⟩
      (by decide)⟩

end IeeeSettings
